import Mathlib

/- Shallow embedding of the VoiceFlow AI core: the transaction-extraction
   pipeline of the backend AI service (transcription fallback, provider
   retry chain, validation/repair of model output, deterministic mock
   records, response cache) and the invoice-synthesis stage (business
   template resolution, due-date resolution, invoice record assembly).
   Numeric fields of the JavaScript source are modelled as rationals, and
   the defaulting done with JavaScript `||` is modelled explicitly with
   its truthiness rules (0, the empty string and a missing value are
   falsy).  External effects (the OpenAI client, the system clock, date
   formatting, QR encoding) are passed in as explicit parameters. -/

/-- JavaScript `x || d` for a numeric `x`: 0 and a missing value are falsy. -/
def jsOrNum (x : Option ℚ) (d : ℚ) : ℚ :=
  match x with
  | some v => if v = 0 then d else v
  | none => d

/-- JavaScript `x || d` for a string `x`: the empty string and a missing value are falsy. -/
def jsOrStr (x : Option String) (d : String) : String :=
  match x with
  | some s => if s = "" then d else s
  | none => d

/-- JavaScript truthiness of an optional string (used for `transactionData.dueDate`). -/
def strTruthy (x : Option String) : Bool :=
  match x with
  | some s => s != ""
  | none => false

/-- Does the pattern match at the head of the text? (helper for `strIncludes`). -/
def leadMatch : List Char → List Char → Bool
  | [], _ => true
  | _ :: _, [] => false
  | p :: ps, c :: cs => p == c && leadMatch ps cs

/-- Does the pattern occur anywhere in the text? (helper for `strIncludes`). -/
def hasSub (pat : List Char) : List Char → Bool
  | [] => leadMatch pat []
  | c :: cs => leadMatch pat (c :: cs) || hasSub pat cs

/-- JavaScript `s.includes(pat)`. -/
def strIncludes (s pat : String) : Bool :=
  hasSub pat.data s.data

/- ===== Data model (TransactionData and its raw, pre-validation shape) ===== -/

/-- A line item of the canonical `TransactionData` (all fields present). -/
structure TxItem where
  name : String
  quantity : ℚ
  unitPrice : ℚ
  total : ℚ
deriving DecidableEq, Repr

/-- A line item as delivered by the model: `total` may be absent. -/
structure RawTxItem where
  name : String
  quantity : ℚ
  unitPrice : ℚ
  total : Option ℚ
deriving DecidableEq, Repr

/-- The optional `customer` record of `TransactionData`. -/
structure Customer where
  name : Option String
  contact : Option String
deriving DecidableEq, Repr

/-- The `metadata` record of `TransactionData` after validation. -/
structure TxMetadata where
  confidence : ℚ
  extractedEntities : List String
deriving DecidableEq, Repr

/-- The `metadata` record as delivered by the model: every field may be absent. -/
structure RawTxMetadata where
  confidence : Option ℚ
  extractedEntities : Option (List String)
deriving DecidableEq, Repr

/-- The `TransactionData` interface of the AI service.  Fields marked
optional in the TypeScript interface are `Option`s here. -/
structure TransactionData where
  items : List TxItem
  customer : Option Customer
  total : ℚ
  currency : String
  paymentTerms : Option String
  dueDate : Option String
  businessType : Option String
  language : String
  metadata : Option TxMetadata
deriving DecidableEq, Repr

/-- Untrusted model output before `validateAndEnhanceTransactionData`:
every field may be absent. -/
structure RawTransactionData where
  items : Option (List RawTxItem)
  customer : Option Customer
  total : Option ℚ
  currency : Option String
  paymentTerms : Option String
  dueDate : Option String
  businessType : Option String
  language : Option String
  metadata : Option RawTxMetadata
deriving DecidableEq, Repr

/- ===== AI service: language tables and mock fallbacks ===== -/

/-- The `currencyMap` of `getCurrencyForLanguage` in the AI service. -/
def currencyTable : List (String × String) :=
  [("id", "IDR"), ("th", "THB"), ("vi", "VND"), ("tl", "PHP"), ("en", "USD")]

/-- `getCurrencyForLanguage`: `currencyMap[language] || 'USD'`. -/
def getCurrencyForLanguage (language : String) : String :=
  (currencyTable.lookup language).getD "USD"

/-- The `mockTranscriptions` table of `getMockTranscription`. -/
def mockTranscriptionTable : List (String × String) :=
  [("id", "Pak Budi servis motor, ganti oli sama kampas rem, total 350 ribu, bayar minggu depan"),
   ("th", "ลูกค้าซื้อผัดไทย 3 จาน ส้มตำ 2 จาน รวม 250 บาท"),
   ("vi", "Chị Lan may áo dài, đặt cọc 500 nghìn, còn lại 1 triệu khi xong"),
   ("tl", "Si Maria bumili ng 3 de lata, 2 pack ng kape, 150 pesos, hulugan"),
   ("en", "Customer bought 3 shirts and 2 pants, total 150 dollars, payment due next week")]

/-- `getMockTranscription`: `mockTranscriptions[language] || mockTranscriptions['en']`. -/
def getMockTranscription (language : String) : String :=
  match mockTranscriptionTable.lookup language with
  | some t => t
  | none => (mockTranscriptionTable.lookup "en").getD ""

/-- The `'id'` entry of the `mockData` table in `getMockTransactionData`. -/
def idMockTransaction : TransactionData :=
  { items := [⟨"Ganti Oli", 1, 150000, 150000⟩, ⟨"Kampas Rem", 1, 200000, 200000⟩]
    customer := some ⟨some "Pak Budi", none⟩
    total := 350000
    currency := "IDR"
    paymentTerms := some "later"
    dueDate := some "next week"
    businessType := some "repair shop"
    language := "id"
    metadata := some ⟨0.92, ["customer", "services", "amount", "payment_terms"]⟩ }

/-- The `'th'` entry of the `mockData` table in `getMockTransactionData`. -/
def thMockTransaction : TransactionData :=
  { items := [⟨"ผัดไทย", 3, 60, 180⟩, ⟨"ส้มตำ", 2, 35, 70⟩]
    customer := none
    total := 250
    currency := "THB"
    paymentTerms := some "immediate"
    dueDate := none
    businessType := some "street food"
    language := "th"
    metadata := some ⟨0.95, ["food_items", "quantity", "amount"]⟩ }

/-- The `'en'` entry of the `mockData` table in `getMockTransactionData`. -/
def enMockTransaction : TransactionData :=
  { items := [⟨"Shirts", 3, 25, 75⟩, ⟨"Pants", 2, 37.5, 75⟩]
    customer := none
    total := 150
    currency := "USD"
    paymentTerms := some "later"
    dueDate := some "next week"
    businessType := some "retail"
    language := "en"
    metadata := some ⟨0.90, ["items", "quantity", "amount", "payment_terms"]⟩ }

/-- The `mockData` table of `getMockTransactionData` (only `id`, `th`, `en`). -/
def mockDataTable : List (String × TransactionData) :=
  [("id", idMockTransaction), ("th", thMockTransaction), ("en", enMockTransaction)]

/-- `getMockTransactionData`: `mockData[language] || mockData['en']`. -/
def getMockTransactionData (language : String) : TransactionData :=
  (mockDataTable.lookup language).getD enMockTransaction

/- ===== AI service: validation / reconciliation ===== -/

/-- The per-item repair inside `validateAndEnhanceTransactionData`:
`{ ...item, total: item.total || (item.quantity * item.unitPrice) }`. -/
def repairItem (item : RawTxItem) : TxItem :=
  { name := item.name
    quantity := item.quantity
    unitPrice := item.unitPrice
    total := jsOrNum item.total (item.quantity * item.unitPrice) }

/-- `enhanced.items.reduce((sum, item) => sum + item.total, 0)`. -/
def itemsSum (items : List TxItem) : ℚ :=
  items.foldl (fun sum item => sum + item.total) 0

/-- `validateAndEnhanceTransactionData(data, language)`: defaults every
optional field, repairs item totals, then replaces the grand total by the
item sum when the sum is positive and disagrees by more than 0.01. -/
def validateAndEnhanceTransactionData (data : RawTransactionData) (language : String) :
    TransactionData :=
  let repairedItems := (data.items.getD []).map repairItem
  let reportedTotal := jsOrNum data.total 0
  let calculatedTotal := itemsSum repairedItems
  let finalTotal :=
    if 0.01 < |reportedTotal - calculatedTotal| ∧ 0 < calculatedTotal then calculatedTotal
    else reportedTotal
  { items := repairedItems
    customer := some (data.customer.getD ⟨none, none⟩)
    total := finalTotal
    currency := jsOrStr data.currency (getCurrencyForLanguage language)
    paymentTerms := some (jsOrStr data.paymentTerms "immediate")
    businessType := some (jsOrStr data.businessType "general")
    language := language
    dueDate := data.dueDate
    metadata := some
      { confidence := (data.metadata.bind RawTxMetadata.confidence).getD 0.85
        extractedEntities := (data.metadata.bind RawTxMetadata.extractedEntities).getD [] } }

/- ===== AI service: retry wrapper and extraction orchestration ===== -/

/-- Trace of one run of `callOpenAIWithRetry`: the surfaced result
(`none` models the JavaScript loop falling through and returning
`undefined`, which cannot happen when at least one attempt is allowed),
the backoff delays slept in milliseconds, and the attempt indices that
actually called the provider. -/
structure RetryTrace (E A : Type) where
  result : Option (Except E A)
  delays : List Nat
  calls : List Nat

/-- The body of the `for (let attempt = 1; attempt <= maxRetries; attempt++)`
loop of `callOpenAIWithRetry`.  `remaining` counts the loop iterations still
allowed (`maxRetries - attempt + 1` at entry), so `remaining = 1` is exactly
the `attempt === maxRetries` case in which the failure is rethrown; earlier
failures sleep `2 ^ attempt * 1000` milliseconds and continue. -/
def retryLoop {E A : Type} (results : Nat → Except E A) (attempt : Nat) :
    Nat → RetryTrace E A
  | 0 => ⟨none, [], []⟩
  | remaining + 1 =>
    match results attempt with
    | Except.ok a => ⟨some (Except.ok a), [], [attempt]⟩
    | Except.error e =>
      match remaining with
      | 0 => ⟨some (Except.error e), [], [attempt]⟩
      | _ + 1 =>
        let rest := retryLoop results (attempt + 1) remaining
        ⟨rest.result, 2 ^ attempt * 1000 :: rest.delays, attempt :: rest.calls⟩

/-- `callOpenAIWithRetry(params, maxRetries = 3)`: the provider call of
attempt `i` is abstracted as `results i`. -/
def callOpenAIWithRetry {E A : Type} (results : Nat → Except E A) : RetryTrace E A :=
  retryLoop results 1 3

/-- `processTransaction(transcription, language)` of the backend AI service.
The OpenAI chat call of attempt `i` is abstracted as `attempts i`, whose
`ok` value is `response.choices[0]?.message?.content` (an optional string);
`JSON.parse` plus the cast to `TransactionData` is abstracted as
`parseJson`.  Every failure path — missing API key, all retries failing,
a missing message content, or unparsable JSON — lands on the mock record;
a parsed response goes through `validateAndEnhanceTransactionData`. -/
def processTransaction (apiKeyConfigured : Bool) (language : String)
    (attempts : Nat → Except String (Option String))
    (parseJson : String → Option RawTransactionData) : TransactionData :=
  if apiKeyConfigured = false then getMockTransactionData language
  else
    match (callOpenAIWithRetry attempts).result with
    | some (Except.ok (some result)) =>
      match parseJson result with
      | some parsedData => validateAndEnhanceTransactionData parsedData language
      | none => getMockTransactionData language
    | some (Except.ok none) => getMockTransactionData language
    | some (Except.error _) => getMockTransactionData language
    | none => getMockTransactionData language

/- ===== Transcription adapters ===== -/

/-- `transcribeAudio` of the backend AI service (src/unnamed/part_002).
The Whisper call is abstracted as `providerResult`.  With no API key the
mock transcript is returned; with a key, a successful but empty response
falls back to the mock transcript (`response || mock`), and ANY provider
error is caught and also falls back to the mock transcript. -/
def aiTranscribeAudio (apiKeyConfigured : Bool) (providerResult : Except Unit String)
    (language : String) : String :=
  if apiKeyConfigured = false then getMockTranscription language
  else
    match providerResult with
    | Except.ok response =>
      if response = "" then getMockTranscription language else response
    | Except.error _ => getMockTranscription language

/-- `transcribeAudio` of `SeaLionService` (src/ai-services/src/seaLionService.ts):
a provider failure is caught and rethrown as
`new Error('Failed to transcribe audio')`, which propagates to the caller. -/
def seaLionTranscribeAudio (providerResult : Except Unit String) (_language : String) :
    Except String String :=
  match providerResult with
  | Except.ok response => Except.ok response
  | Except.error _ => Except.error "Failed to transcribe audio"

/- ===== Response cache (SeaLionService of src/unnamed/part_000) ===== -/

/-- A cache entry: `{ data: TransactionData, timestamp }`. -/
structure CacheEntry where
  data : TransactionData
  timestamp : Int
deriving DecidableEq, Repr

/-- `CACHE_DURATION = 5 * 60 * 1000` milliseconds. -/
def CACHE_DURATION : Int := 5 * 60 * 1000

/-- `Map.delete` on the cache, modelled as a map from keys to optional entries. -/
def mapDelete (cache : String → Option CacheEntry) (key : String) :
    String → Option CacheEntry :=
  fun k => if k = key then none else cache k

/-- `getFromCache(key)` at time `now`: returns the hit (if fresh) together
with the cache state after the call (an expired entry is deleted). -/
def getFromCache (cache : String → Option CacheEntry) (key : String) (now : Int) :
    Option TransactionData × (String → Option CacheEntry) :=
  match cache key with
  | some cached =>
    if now - cached.timestamp < CACHE_DURATION then (some cached.data, cache)
    else (none, mapDelete cache key)
  | none => (none, cache)

/- ===== Invoice service ===== -/

/-- The `business` identity resolved by `getBusinessTemplate`. -/
structure BusinessInfo where
  name : String
  address : String
  phone : String
  email : String
deriving DecidableEq, Repr

/-- The hard-coded generic fallback identity of `getBusinessTemplate`. -/
def genericBusiness : BusinessInfo :=
  ⟨"VoiceFlow Business", "123 Business Street", "+1 234 567 8900", "contact@voiceflow.ai"⟩

/-- The `templates` table of `getBusinessTemplate`. -/
def businessTemplates : List (String × List (String × BusinessInfo)) :=
  [("street food",
    [("th", ⟨"ร้านอาหารริมทาง", "123 ถนนสุขุมวิท กรุงเทพฯ", "+66 2 123 4567", "streetfood@example.com"⟩),
     ("en", ⟨"Street Food Corner", "123 Main Street, Bangkok", "+66 2 123 4567", "streetfood@example.com"⟩)]),
   ("repair shop",
    [("id", ⟨"Bengkel Motor Pak Budi", "Jl. Raya No. 123, Jakarta", "+62 21 123 4567", "bengkel@example.com"⟩),
     ("en", ⟨"Budi Motor Repair", "123 Main Road, Jakarta", "+62 21 123 4567", "repair@example.com"⟩)]),
   ("sari-sari store",
    [("tl", ⟨"Sari-Sari Store ni Maria", "123 Barangay Street, Manila", "+63 2 123 4567", "sarisari@example.com"⟩),
     ("en", ⟨"Maria\x27s Sari-Sari Store", "123 Barangay Street, Manila", "+63 2 123 4567", "store@example.com"⟩)]),
   ("tailor",
    [("vi", ⟨"Tiệm May Chị Lan", "123 Đường Nguyễn Huệ, TP.HCM", "+84 28 123 4567", "tailor@example.com"⟩),
     ("en", ⟨"Lan\x27s Tailor Shop", "123 Nguyen Hue Street, HCMC", "+84 28 123 4567", "tailor@example.com"⟩)])]

/-- `getBusinessTemplate(businessType, language)`: return
`templates[businessType][language]` when both lookups succeed, otherwise
the generic identity.  (The source has no intermediate
`(businessType, 'en')` step.) -/
def getBusinessTemplate (businessType language : String) : BusinessInfo :=
  match businessTemplates.lookup businessType with
  | some businessTemplate =>
    match businessTemplate.lookup language with
    | some info => info
    | none => genericBusiness
  | none => genericBusiness

/-- The `templates` table of `selectTemplate`. -/
def templateTable : List (String × String) :=
  [("street food", "food-service"), ("repair shop", "service-maintenance"),
   ("sari-sari store", "retail"), ("tailor", "custom-service"),
   ("retail", "retail"), ("general", "standard")]

/-- `selectTemplate(businessType)`: `templates[businessType] || 'standard'`. -/
def selectTemplate (businessType : String) : String :=
  (templateTable.lookup businessType).getD "standard"

/-- The date operations used by `parseDueDate`, abstracting `new Date()`
arithmetic and formatting: `addDays n` is today plus `n` days as an ISO
date, `addMonths n` is today plus `n` calendar months, and `parseAbsDate`
is `new Date(hint)` (returning `none` when the result is `NaN`). -/
structure DateEnv where
  addDays : Nat → String
  addMonths : Nat → String
  parseAbsDate : String → Option String

/-- `parseDueDate(dueDate)`: a hint containing "week" resolves to today + 7
days, else one containing "month" to today + 1 month, else the hint is
parsed as an absolute date, defaulting to today + 30 days when unparsable. -/
def parseDueDate (dates : DateEnv) (dueDate : String) : String :=
  if strIncludes dueDate "week" then dates.addDays 7
  else if strIncludes dueDate "month" then dates.addMonths 1
  else
    match dates.parseAbsDate dueDate with
    | some parsed => parsed
    | none => dates.addDays 30

/-- The `InvoiceData` record built by `generateInvoice`. -/
structure InvoiceData where
  invoiceNumber : String
  date : String
  dueDate : Option String
  business : BusinessInfo
  customer : Option Customer
  items : List TxItem
  subtotal : ℚ
  total : ℚ
  currency : String
  paymentTerms : String
  qrCode : String
  template : String
  language : String
deriving DecidableEq, Repr

/-- The effectful inputs of `generateInvoice`: the generated invoice
number, the current date, the date arithmetic of `parseDueDate`, and the
result of `generatePaymentQR`. -/
structure InvoiceEnv where
  invoiceNumber : String
  currentDate : String
  dates : DateEnv
  qrCode : String

/-- `generateInvoice(transactionData, businessType)`: resolves the business
identity and template, resolves the due date only when
`paymentTerms === 'later'` and `dueDate` is truthy, and copies the
transaction fields into the invoice. -/
def generateInvoice (env : InvoiceEnv) (transactionData : TransactionData)
    (businessType : String) : InvoiceData :=
  let businessInfo := getBusinessTemplate businessType transactionData.language
  let template := selectTemplate businessType
  let dueDate : Option String :=
    if transactionData.paymentTerms = some "later" ∧ strTruthy transactionData.dueDate then
      some (parseDueDate env.dates (transactionData.dueDate.getD ""))
    else none
  { invoiceNumber := env.invoiceNumber
    date := env.currentDate
    dueDate := dueDate
    business := businessInfo
    customer := transactionData.customer
    items := transactionData.items
    subtotal := transactionData.total
    total := transactionData.total
    currency := transactionData.currency
    paymentTerms := jsOrStr transactionData.paymentTerms "immediate"
    qrCode := env.qrCode
    template := template
    language := transactionData.language }

/- ===== Claims ===== -/

/-- Claim C9: for the supported languages vi and tl the deterministic mock
transaction fallback returns the English mock record (currency USD,
language en, retail items), because the mock table only has entries for
id, th and en and every other language falls back to the en entry. -/
theorem C9_mock_vi_tl_fall_back_to_en :
    getMockTransactionData "vi" = enMockTransaction
    ∧ getMockTransactionData "tl" = enMockTransaction
    ∧ enMockTransaction.currency = "USD"
    ∧ enMockTransaction.language = "en"
    ∧ enMockTransaction.businessType = some "retail" :=
  ⟨rfl, rfl, rfl, rfl, rfl⟩

/-- Claim C10: invoice synthesis copies the transaction items, total,
currency, customer and language into the invoice unchanged, and sets the
subtotal equal to the transaction total.  The embedding of
`generateInvoice` is a pure function of its `TransactionData` argument,
so the input record is never modified. -/
theorem C10_invoice_copies_transaction (env : InvoiceEnv) (td : TransactionData)
    (businessType : String) :
    (generateInvoice env td businessType).items = td.items
    ∧ (generateInvoice env td businessType).subtotal = td.total
    ∧ (generateInvoice env td businessType).total = td.total
    ∧ (generateInvoice env td businessType).currency = td.currency
    ∧ (generateInvoice env td businessType).customer = td.customer
    ∧ (generateInvoice env td businessType).language = td.language :=
  ⟨rfl, rfl, rfl, rfl, rfl, rfl⟩

/-- Counterexample to claim C3: in the backend AI service, with an API key
configured and the provider failing, `transcribeAudio` does NOT propagate
a transcription error — it returns the fixed English mock transcript as a
substitute result. -/
theorem C3_counterexample :
    aiTranscribeAudio true (Except.error ()) "en"
      = "Customer bought 3 shirts and 2 pants, total 150 dollars, payment due next week"
    ∧ aiTranscribeAudio true (Except.error ()) "en" = getMockTranscription "en" :=
  ⟨rfl, rfl⟩

/-- Claim C3 (amended): only the `SeaLionService` transcription adapter
propagates a provider failure to the caller, as the error
"Failed to transcribe audio"; the backend AI service `transcribeAudio`
absorbs every provider failure — even with a credential configured — and
returns the per-language mock transcript instead. -/
theorem C3_transcription_error_handling :
    (∀ (language : String) (e : Unit),
       seaLionTranscribeAudio (Except.error e) language
         = Except.error "Failed to transcribe audio")
    ∧ (∀ (language : String) (e : Unit),
       aiTranscribeAudio true (Except.error e) language = getMockTranscription language) :=
  ⟨fun _ _ => rfl, fun _ _ => rfl⟩

/-- Counterexample to claim C1: the business template table has an entry
for ("street food", "en"), yet resolving business type "street food" in
language "id" yields the generic identity — the claimed intermediate
(businessType, "en") fallback tier does not exist in the code. -/
theorem C1_counterexample :
    getBusinessTemplate "street food" "id" = genericBusiness
    ∧ (businessTemplates.lookup "street food").bind (fun t => t.lookup "en")
        = some ⟨"Street Food Corner", "123 Main Street, Bangkok",
                "+66 2 123 4567", "streetfood@example.com"⟩
    ∧ (⟨"Street Food Corner", "123 Main Street, Bangkok",
        "+66 2 123 4567", "streetfood@example.com"⟩ : BusinessInfo) ≠ genericBusiness := by
  refine ⟨rfl, rfl, by decide⟩

/-- Claim C1 (amended): business template resolution looks up
(businessType, language); if that exact pair is absent it falls back
directly to the fixed generic business identity (there is no intermediate
(businessType, "en") tier), so it always produces a complete business
identity — the result type `BusinessInfo` has all four fields. -/
theorem C1_template_two_level_fallback (businessType language : String) :
    (∀ info : BusinessInfo,
       (businessTemplates.lookup businessType).bind (fun t => t.lookup language)
         = some info →
       getBusinessTemplate businessType language = info)
    ∧ ((businessTemplates.lookup businessType).bind (fun t => t.lookup language) = none →
       getBusinessTemplate businessType language = genericBusiness) := by
  constructor
  · intro info h
    cases h1 : businessTemplates.lookup businessType with
    | none => rw [h1] at h; simp at h
    | some t =>
      rw [h1] at h
      simp only [Option.some_bind] at h
      simp [getBusinessTemplate, h1, h]
  · intro h
    cases h1 : businessTemplates.lookup businessType with
    | none => simp [getBusinessTemplate, h1]
    | some t =>
      rw [h1] at h
      simp only [Option.some_bind] at h
      simp [getBusinessTemplate, h1, h]

/-- Witness for claim C1 (amended): the pair ("street food", "th") is in
the table and resolves to its Thai identity. -/
theorem C1_template_two_level_fallback_witness :
    getBusinessTemplate "street food" "th"
      = ⟨"ร้านอาหารริมทาง", "123 ถนนสุขุมวิท กรุงเทพฯ", "+66 2 123 4567",
         "streetfood@example.com"⟩ :=
  (C1_template_two_level_fallback "street food" "th").1 _ rfl

/-- Claim C5: validation maps the per-item repair over the items; an item
whose reported total is absent or zero gets `quantity * unitPrice`, and an
item with a nonzero reported total keeps it unchanged. -/
theorem C5_item_total_repair (data : RawTransactionData) (language : String) :
    (validateAndEnhanceTransactionData data language).items
      = (data.items.getD []).map repairItem
    ∧ (∀ item : RawTxItem, item.total = none ∨ item.total = some 0 →
        (repairItem item).total = item.quantity * item.unitPrice)
    ∧ (∀ (item : RawTxItem) (t : ℚ), item.total = some t → t ≠ 0 →
        (repairItem item).total = t) := by
  refine ⟨rfl, ?_, ?_⟩
  · intro item h
    rcases h with h | h <;> simp [repairItem, jsOrNum, h]
  · intro item t h ht
    simp [repairItem, jsOrNum, h, ht]

/-- An arbitrary raw model output used to instantiate universally
quantified validation theorems. -/
def rawSample : RawTransactionData :=
  ⟨none, none, none, none, none, none, none, none, none⟩

/-- Witness for claim C5: a zero reported item total is replaced by
quantity times unit price, and a nonzero one is kept. -/
theorem C5_item_total_repair_witness :
    (repairItem ⟨"oil change", 2, 5, some 0⟩).total = 2 * 5
    ∧ (repairItem ⟨"brake pads", 2, 5, some 7⟩).total = 7 :=
  ⟨(C5_item_total_repair rawSample "en").2.1 ⟨"oil change", 2, 5, some 0⟩ (Or.inr rfl),
   (C5_item_total_repair rawSample "en").2.2 ⟨"brake pads", 2, 5, some 7⟩ 7 rfl
     (by norm_num)⟩

/-- Claim C8: a cache `get` returns the stored data exactly when an entry
exists for the key and is younger than the TTL; an existing entry at or
past the TTL is deleted by the call and reported as a miss (so the caller
falls through to the provider chain again). -/
theorem C8_cache_get_ttl (cache : String → Option CacheEntry) (key : String) (now : Int) :
    (∀ d : TransactionData,
       (getFromCache cache key now).1 = some d ↔
         ∃ e : CacheEntry,
           cache key = some e ∧ e.data = d ∧ now - e.timestamp < CACHE_DURATION)
    ∧ (∀ e : CacheEntry, cache key = some e → CACHE_DURATION ≤ now - e.timestamp →
        (getFromCache cache key now).1 = none
        ∧ (getFromCache cache key now).2 key = none) := by
  constructor
  · intro d
    cases h1 : cache key with
    | none => simp [getFromCache, h1]
    | some e =>
      by_cases h2 : now - e.timestamp < CACHE_DURATION
      · simp [getFromCache, h1, h2]
      · simp [getFromCache, h1, h2]
  · intro e h1 h2
    have h3 : ¬(now - e.timestamp < CACHE_DURATION) := not_lt.mpr h2
    simp [getFromCache, mapDelete, h1, h3]

/-- A one-entry cache used to instantiate the cache theorem. -/
def cacheSample : String → Option CacheEntry :=
  fun k => if k = "en-abc" then some ⟨enMockTransaction, 0⟩ else none

/-- Witness for claim C8: an entry written at time 0 and read at exactly
the TTL (300000 ms) is a miss and is deleted. -/
theorem C8_cache_get_ttl_witness :
    (getFromCache cacheSample "en-abc" 300000).1 = none
    ∧ (getFromCache cacheSample "en-abc" 300000).2 "en-abc" = none :=
  (C8_cache_get_ttl cacheSample "en-abc" 300000).2 ⟨enMockTransaction, 0⟩
    (by simp [cacheSample]) (by norm_num [CACHE_DURATION])

/-- Claim C6: the invoice due date is set only when
`paymentTerms = "later"` and a (truthy) due-date hint is present, and the
hint resolves as: containing "week" gives today + 7 days, else containing
"month" gives today + 1 calendar month, else the hint is parsed as an
absolute date, defaulting to today + 30 days when unparsable; in every
other case the invoice `dueDate` field is absent. -/
theorem C6_due_date_resolution (env : InvoiceEnv) (td : TransactionData)
    (businessType : String) :
    (∀ hint : String, td.paymentTerms = some "later" → td.dueDate = some hint →
       hint ≠ "" →
       (generateInvoice env td businessType).dueDate
         = some (parseDueDate env.dates hint))
    ∧ (td.paymentTerms ≠ some "later" ∨ td.dueDate = none ∨ td.dueDate = some "" →
       (generateInvoice env td businessType).dueDate = none)
    ∧ (∀ hint : String, strIncludes hint "week" = true →
       parseDueDate env.dates hint = env.dates.addDays 7)
    ∧ (∀ hint : String, strIncludes hint "week" = false →
       strIncludes hint "month" = true →
       parseDueDate env.dates hint = env.dates.addMonths 1)
    ∧ (∀ (hint parsedDate : String), strIncludes hint "week" = false →
       strIncludes hint "month" = false →
       env.dates.parseAbsDate hint = some parsedDate →
       parseDueDate env.dates hint = parsedDate)
    ∧ (∀ hint : String, strIncludes hint "week" = false →
       strIncludes hint "month" = false →
       env.dates.parseAbsDate hint = none →
       parseDueDate env.dates hint = env.dates.addDays 30) := by
  refine ⟨?_, ?_, ?_, ?_, ?_, ?_⟩
  · intro hint h1 h2 h3
    simp [generateInvoice, strTruthy, h1, h2, h3]
  · intro h
    rcases h with h | h | h <;> simp [generateInvoice, strTruthy, h]
  · intro hint h
    simp [parseDueDate, h]
  · intro hint h1 h2
    simp [parseDueDate, h1, h2]
  · intro hint parsedDate h1 h2 h3
    simp [parseDueDate, h1, h2, h3]
  · intro hint h1 h2 h3
    simp [parseDueDate, h1, h2, h3]

/-- Date operations used to instantiate the due-date theorem. -/
def dateEnvSample : DateEnv :=
  ⟨fun n => "D" ++ toString n, fun n => "M" ++ toString n, fun _ => none⟩

/-- Invoice inputs used to instantiate the due-date theorem. -/
def invoiceEnvSample : InvoiceEnv :=
  ⟨"VF0000000100", "2026-01-01", dateEnvSample, ""⟩

/-- Witness for claim C6: the English mock transaction (payment terms
"later", hint "next week") resolves to today + 7 days, and an unparsable
hint resolves to today + 30 days. -/
theorem C6_due_date_resolution_witness :
    (generateInvoice invoiceEnvSample enMockTransaction "retail").dueDate
      = some (parseDueDate dateEnvSample "next week")
    ∧ parseDueDate dateEnvSample "next week" = dateEnvSample.addDays 7
    ∧ parseDueDate dateEnvSample "someday soon" = dateEnvSample.addDays 30 :=
  ⟨(C6_due_date_resolution invoiceEnvSample enMockTransaction "retail").1
     "next week" rfl rfl (by decide),
   (C6_due_date_resolution invoiceEnvSample enMockTransaction "retail").2.2.1
     "next week" (by decide),
   (C6_due_date_resolution invoiceEnvSample enMockTransaction "retail").2.2.2.2.2
     "someday soon" (by decide) (by decide) rfl⟩

/-- Claim C4: after validation, whenever the item sum is positive and the
reported grand total differs from it by more than 0.01 the total is
replaced by the item sum, otherwise the reported total is kept; hence a
positive item sum always ends within 0.01 of the validated total. -/
theorem C4_grand_total_reconciliation (data : RawTransactionData) (language : String) :
    (0 < itemsSum (validateAndEnhanceTransactionData data language).items ∧
       0.01 < |jsOrNum data.total 0
                 - itemsSum (validateAndEnhanceTransactionData data language).items| →
       (validateAndEnhanceTransactionData data language).total
         = itemsSum (validateAndEnhanceTransactionData data language).items)
    ∧ (¬(0 < itemsSum (validateAndEnhanceTransactionData data language).items ∧
         0.01 < |jsOrNum data.total 0
                   - itemsSum (validateAndEnhanceTransactionData data language).items|) →
       (validateAndEnhanceTransactionData data language).total = jsOrNum data.total 0)
    ∧ (0 < itemsSum (validateAndEnhanceTransactionData data language).items →
       |(validateAndEnhanceTransactionData data language).total
          - itemsSum (validateAndEnhanceTransactionData data language).items| ≤ 0.01) := by
  have hitems : (validateAndEnhanceTransactionData data language).items
      = (data.items.getD []).map repairItem := rfl
  rw [hitems]
  set s := itemsSum ((data.items.getD []).map repairItem) with hs_def
  set r := jsOrNum data.total 0 with hr_def
  have htotal : (validateAndEnhanceTransactionData data language).total
      = if 0.01 < |r - s| ∧ 0 < s then s else r := rfl
  rw [htotal]
  by_cases hcond : 0.01 < |r - s| ∧ 0 < s
  · rw [if_pos hcond]
    exact ⟨fun _ => rfl, fun hn => absurd ⟨hcond.2, hcond.1⟩ hn,
      fun _ => by rw [sub_self, abs_zero]; norm_num⟩
  · rw [if_neg hcond]
    push_neg at hcond
    refine ⟨?_, fun _ => rfl, ?_⟩
    · rintro ⟨hs0, hd⟩
      exact absurd hs0 (not_lt.mpr (hcond hd))
    · intro hs0
      have hle : ¬(0.01 < |r - s|) := fun hgt => absurd hs0 (not_lt.mpr (hcond hgt))
      exact not_lt.mp hle

/-- A raw model output with one item (total 90) and an inconsistent
reported grand total of 100, used to instantiate the reconciliation
theorem. -/
def rawOverrideSample : RawTransactionData :=
  { items := some [⟨"pad thai", 2, 45, some 90⟩]
    customer := none
    total := some 100
    currency := none
    paymentTerms := none
    dueDate := none
    businessType := none
    language := none
    metadata := none }

/-- Witness for claim C4: item sum 90 versus reported total 100 makes the
validator replace the grand total by the item sum. -/
theorem C4_grand_total_reconciliation_witness :
    (validateAndEnhanceTransactionData rawOverrideSample "th").total
      = itemsSum (validateAndEnhanceTransactionData rawOverrideSample "th").items :=
  (C4_grand_total_reconciliation rawOverrideSample "th").1 (by
    have hsum : itemsSum (validateAndEnhanceTransactionData rawOverrideSample "th").items
        = 90 := by
      norm_num [validateAndEnhanceTransactionData, rawOverrideSample, itemsSum,
        repairItem, jsOrNum]
    have hr : jsOrNum rawOverrideSample.total 0 = 100 := by
      norm_num [rawOverrideSample, jsOrNum]
    rw [hsum, hr]
    constructor
    · norm_num
    · rw [show (100 : ℚ) - 90 = 10 by norm_num,
        abs_of_pos (by norm_num : (0 : ℚ) < 10)]
      norm_num)

/-- Claim C7: the retry wrapper makes at most 3 attempts and the outcome
depends only on the first three attempts; the four explicit trace cases
below therefore characterize every run.  When all three attempts fail,
only the third attempt's failure surfaces (earlier failures are absorbed)
after backoff delays of 2^1 and 2^2 seconds (2000 and 4000 ms) following
failed attempts 1 and 2.  A success on ANY attempt returns immediately
with no further calls: success on attempt 1 makes the single call [1]
with no delay, success on attempt 2 makes the calls [1, 2] with the
single delay 2^1 seconds after failed attempt 1, and success on attempt 3
makes the calls [1, 2, 3] with delays 2^1 and 2^2 seconds after failed
attempts 1 and 2. -/
theorem C7_retry_behavior :
    (∀ (E A : Type) (results : Nat → Except E A) (e1 e2 e3 : E),
       results 1 = Except.error e1 → results 2 = Except.error e2 →
       results 3 = Except.error e3 →
       callOpenAIWithRetry results
         = ⟨some (Except.error e3), [2000, 4000], [1, 2, 3]⟩)
    ∧ (∀ (E A : Type) (results : Nat → Except E A) (a : A),
       results 1 = Except.ok a →
       callOpenAIWithRetry results = ⟨some (Except.ok a), [], [1]⟩)
    ∧ (∀ (E A : Type) (results : Nat → Except E A) (e1 : E) (a : A),
       results 1 = Except.error e1 → results 2 = Except.ok a →
       callOpenAIWithRetry results = ⟨some (Except.ok a), [2000], [1, 2]⟩)
    ∧ (∀ (E A : Type) (results : Nat → Except E A) (e1 e2 : E) (a : A),
       results 1 = Except.error e1 → results 2 = Except.error e2 →
       results 3 = Except.ok a →
       callOpenAIWithRetry results = ⟨some (Except.ok a), [2000, 4000], [1, 2, 3]⟩)
    ∧ (∀ (E A : Type) (results : Nat → Except E A),
       (callOpenAIWithRetry results).calls.length ≤ 3)
    ∧ (∀ (E A : Type) (r rr : Nat → Except E A),
       (∀ i : Nat, i ≤ 3 → r i = rr i) →
       callOpenAIWithRetry r = callOpenAIWithRetry rr) := by
  refine ⟨?_, ?_, ?_, ?_, ?_, ?_⟩
  · intro E A results e1 e2 e3 h1 h2 h3
    simp [callOpenAIWithRetry, retryLoop, h1, h2, h3]
  · intro E A results a h1
    simp [callOpenAIWithRetry, retryLoop, h1]
  · intro E A results e1 a h1 h2
    simp [callOpenAIWithRetry, retryLoop, h1, h2]
  · intro E A results e1 e2 a h1 h2 h3
    simp [callOpenAIWithRetry, retryLoop, h1, h2, h3]
  · intro E A results
    cases h1 : results 1 <;> cases h2 : results 2 <;> cases h3 : results 3 <;>
      simp [callOpenAIWithRetry, retryLoop, h1, h2, h3]
  · intro E A r rr h
    have h1 := h 1 (by norm_num)
    have h2 := h 2 (by norm_num)
    have h3 := h 3 (by norm_num)
    cases k1 : rr 1 <;> cases k2 : rr 2 <;> cases k3 : rr 3 <;>
      simp [callOpenAIWithRetry, retryLoop, h1, h2, h3, k1, k2, k3]

/-- Witness for claim C7: with every attempt failing, the surfaced error
is the third attempt's and the backoff delays are 2000 ms and 4000 ms;
with attempt 1 failing and attempt 2 succeeding, the wrapper returns the
success after the single 2000 ms delay and makes no third call. -/
theorem C7_retry_behavior_witness :
    callOpenAIWithRetry (fun i => (Except.error (toString i) : Except String String))
      = ⟨some (Except.error "3"), [2000, 4000], [1, 2, 3]⟩
    ∧ callOpenAIWithRetry
        (fun i => if i = 1 then (Except.error "boom" : Except String String)
                  else Except.ok "parsed")
      = ⟨some (Except.ok "parsed"), [2000], [1, 2]⟩ :=
  ⟨C7_retry_behavior.1 String String _ "1" "2" "3" rfl rfl rfl,
   C7_retry_behavior.2.2.1 String String _ "boom" "parsed" rfl rfl⟩

/-- Claim C2: once invoked, `processTransaction` is a total function — in
the embedding every failure path is a value, never an exception — and when
every provider attempt fails, or the model output never parses as JSON,
the result is exactly the deterministic mock record for the language; for
language "th" that record has items ผัดไทย 3 × 60 = 180 and
ส้มตำ 2 × 35 = 70, total 250, currency THB. -/
theorem C2_fallback_to_mock :
    (∀ (apiKeyConfigured : Bool) (language : String)
       (attempts : Nat → Except String (Option String))
       (parseJson : String → Option RawTransactionData),
       (∀ i : Nat, ∃ e : String, attempts i = Except.error e) →
       processTransaction apiKeyConfigured language attempts parseJson
         = getMockTransactionData language)
    ∧ (∀ (apiKeyConfigured : Bool) (language : String)
       (attempts : Nat → Except String (Option String))
       (parseJson : String → Option RawTransactionData),
       (∀ s : String, parseJson s = none) →
       processTransaction apiKeyConfigured language attempts parseJson
         = getMockTransactionData language)
    ∧ (∀ (attempts : Nat → Except String (Option String))
       (parseJson : String → Option RawTransactionData),
       (∀ i : Nat, ∃ e : String, attempts i = Except.error e) →
       processTransaction true "th" attempts parseJson
         = { items := [⟨"ผัดไทย", 3, 60, 180⟩, ⟨"ส้มตำ", 2, 35, 70⟩]
             customer := none
             total := 250
             currency := "THB"
             paymentTerms := some "immediate"
             dueDate := none
             businessType := some "street food"
             language := "th"
             metadata := some ⟨0.95, ["food_items", "quantity", "amount"]⟩ }) := by
  have main : ∀ (apiKeyConfigured : Bool) (language : String)
      (attempts : Nat → Except String (Option String))
      (parseJson : String → Option RawTransactionData),
      (∀ i : Nat, ∃ e : String, attempts i = Except.error e) →
      processTransaction apiKeyConfigured language attempts parseJson
        = getMockTransactionData language := by
    intro apiKeyConfigured language attempts parseJson h
    cases apiKeyConfigured with
    | false => rfl
    | true =>
      obtain ⟨e1, h1⟩ := h 1
      obtain ⟨e2, h2⟩ := h 2
      obtain ⟨e3, h3⟩ := h 3
      simp [processTransaction, callOpenAIWithRetry, retryLoop, h1, h2, h3]
  refine ⟨main, ?_, fun attempts parseJson h =>
    (main true "th" attempts parseJson h).trans (by rfl)⟩
  intro apiKeyConfigured language attempts parseJson h
  cases apiKeyConfigured with
  | false => rfl
  | true =>
    cases hr : (callOpenAIWithRetry attempts).result with
    | none => simp [processTransaction, hr]
    | some x =>
      cases x with
      | error e => simp [processTransaction, hr]
      | ok content =>
        cases content with
        | none => simp [processTransaction, hr]
        | some s => simp [processTransaction, hr, h s]

/-- Witness for claim C2: with the API key configured, every provider
attempt failing and a parser that always rejects, the Thai mock record is
returned. -/
theorem C2_fallback_to_mock_witness :
    processTransaction true "th" (fun _ => Except.error "http 500") (fun _ => none)
      = getMockTransactionData "th" :=
  C2_fallback_to_mock.1 true "th" _ _ (fun _ => ⟨"http 500", rfl⟩)
